import Mathlib

/-!
Shallow embedding of the order-placement pipeline of the coffee-ordering
backend (src/routes/orderRoutes.js), together with theorems settling the
specification claims about it.

Prices are modelled as rationals (the source uses JS numbers holding
fixed-point currency amounts), database tables as lists of row structures,
and the handler as a pure function from a database state, guard state,
request and clock to a new state, response and emitted realtime events.
-/

namespace CoffeeOrders

abbrev Money := ℚ

/-- Row of the menu_items table (columns used by the order routes). -/
structure MenuItemRow where
  id : Nat
  availability : Bool
  regular_price : Money
  sale_price : Option Money
deriving DecidableEq, Repr

/-- Row of the menu_item_supplements association table. -/
structure SupplementRow where
  menu_item_id : Nat
  supplement_id : Nat
  additional_price : Money
deriving DecidableEq, Repr

/-- Row of the breakfasts table. -/
structure BreakfastRow where
  id : Nat
  availability : Bool
  price : Money
deriving DecidableEq, Repr

/-- Row of the breakfast_option_groups table. -/
structure OptionGroupRow where
  id : Nat
  breakfast_id : Nat
deriving DecidableEq, Repr

/-- Row of the breakfast_options table. -/
structure BreakfastOptionRow where
  id : Nat
  breakfast_id : Nat
  group_id : Nat
  additional_price : Money
deriving DecidableEq, Repr

/-- Row of the tables table (status is a free-form string in the store:
the routes use the values available, occupied via reserved). -/
structure TableRow where
  id : Nat
  table_number : Nat
  status : String
deriving DecidableEq, Repr

/-- Row of the promotions table. -/
structure PromotionRow where
  id : Nat
  active : Bool
  discount_percentage : Money
  item_id : Option Nat
  start_date : Int
  end_date : Int
deriving DecidableEq, Repr

/-- Row of the orders table. -/
structure OrderRow where
  id : Nat
  total_price : Money
  order_type : String
  delivery_address : Option String
  promotion_id : Option Int
  table_id : Option Int
  session_id : String
  approved : Bool
deriving DecidableEq, Repr

/-- Row of the order_items table: either a menu-item line (item_id set)
or a breakfast line (breakfast_id set). -/
structure OrderItemRow where
  id : Nat
  order_id : Nat
  item_id : Option Int
  breakfast_id : Option Int
  quantity : Int
  unit_price : Money
  supplement_id : Option Int
deriving DecidableEq, Repr

/-- Row of the breakfast_order_options join table. -/
structure BreakfastOrderOptionRow where
  order_item_id : Nat
  breakfast_option_id : Int
deriving DecidableEq, Repr

/-- Row of the notifications table (columns used by order creation). -/
structure NotificationRow where
  id : Nat
  ntype : String
  reference_id : Nat
  message : String
deriving DecidableEq, Repr

/-- The relational store, restricted to the tables the order routes touch,
plus auto-increment counters for the inserted ids. -/
structure DB where
  menu_items : List MenuItemRow
  menu_item_supplements : List SupplementRow
  breakfasts : List BreakfastRow
  breakfast_option_groups : List OptionGroupRow
  breakfast_options : List BreakfastOptionRow
  tables : List TableRow
  promotions : List PromotionRow
  orders : List OrderRow
  order_items : List OrderItemRow
  breakfast_order_options : List BreakfastOrderOptionRow
  notifications : List NotificationRow
  nextOrderId : Nat
  nextOrderItemId : Nat
  nextNotificationId : Nat
deriving DecidableEq, Repr

/-- One element of the request's items array (a menu-item cart line). -/
structure ItemLine where
  item_id : Int
  quantity : Int
  unit_price : Money
  supplement_id : Option Int
deriving DecidableEq, Repr

/-- One element of the request's breakfastItems array. -/
structure BreakfastLine where
  breakfast_id : Int
  quantity : Int
  unit_price : Money
  option_ids : Option (List Int)
deriving DecidableEq, Repr

/-- The POST /orders request body. -/
structure OrderRequest where
  items : Option (List ItemLine)
  breakfastItems : Option (List BreakfastLine)
  total_price : Money
  order_type : String
  delivery_address : Option String
  promotion_id : Option Int
  table_id : Option Int
  request_id : String
deriving DecidableEq, Repr

/-- Structured rendering of the error strings the handler produces; each
constructor corresponds to one message template and its interpolated
values. -/
inductive ErrMsg where
  | invalidRequestId
  | emptyItems
  | invalidOrderType
  | tableIdRequired
  | deliveryAddressRequired
  | invalidItemId (id : Int)
  | invalidQuantityItem (id : Int)
  | invalidUnitPriceItem (id : Int)
  | itemUnavailable (id : Int)
  | invalidSupplement (supplement_id : Int) (item_id : Int)
  | unitPriceMismatchItem (item_id : Int) (expected provided : Money)
  | invalidBreakfastId (id : Int)
  | invalidQuantityBreakfast (id : Int)
  | invalidUnitPriceBreakfast (id : Int)
  | breakfastUnavailable (id : Int)
  | invalidOptionIds (breakfast_id : Int)
  | optionGroupCoverage (groupCount : Nat) (breakfast_id : Int)
  | noGroupsButOptions (breakfast_id : Int)
  | unitPriceMismatchBreakfast (breakfast_id : Int) (expected provided : Money)
  | tableDoesNotExist
  | tableReserved
  | totalPriceMismatch (expected provided : Money)
  | invalidOrderId
  | alreadyApproved
deriving DecidableEq, Repr

/-- Outcome of a validation stage: a reported 400 error, or a thrown
runtime error (caught by the route and turned into a 500). -/
inductive HandlerErr where
  | bad (m : ErrMsg)
  | thrown
deriving DecidableEq, Repr

/-- HTTP-level response of a route handler. -/
inductive Resp where
  | created (orderId : Nat)
  | okMsg
  | badRequest (m : ErrMsg)
  | forbidden
  | notFound
  | tooManyRequests
  | serverError
deriving DecidableEq, Repr

/-- Realtime events emitted over the socket transport. -/
inductive Event where
  | newOrder (orderId : Nat)
  | tableStatusUpdate (table_id : Int) (status : String)
  | newNotification (id : Nat)
  | orderApprovedSession (session : String) (orderId : Nat)
  | orderApprovedBroadcast (orderId : Nat)
deriving DecidableEq, Repr

/-- JS truthiness of an optional numeric field (absent, null and 0 are
falsy). -/
def truthy : Option Int → Bool
  | none => false
  | some n => n ≠ 0

/-- The x || null normalisation applied to optional ids before they are
stored (a falsy value becomes NULL). -/
def orNull (o : Option Int) : Option Int :=
  match o with
  | some 0 => none
  | x => x

/-- SELECT from menu_items WHERE id = ?. -/
def findMenuItem (db : DB) (iid : Int) : Option MenuItemRow :=
  db.menu_items.find? (fun r => (r.id : Int) = iid)

/-- SELECT additional_price FROM menu_item_supplements WHERE
menu_item_id = ? AND supplement_id = ?. -/
def findSupplement (db : DB) (iid sid : Int) : Option SupplementRow :=
  db.menu_item_supplements.find? (fun r => (r.menu_item_id : Int) = iid ∧ (r.supplement_id : Int) = sid)

/-- SELECT from breakfasts WHERE id = ?. -/
def findBreakfast (db : DB) (bid : Int) : Option BreakfastRow :=
  db.breakfasts.find? (fun r => (r.id : Int) = bid)

/-- SELECT id FROM breakfast_option_groups WHERE breakfast_id = ?. -/
def groupsFor (db : DB) (bid : Int) : List OptionGroupRow :=
  db.breakfast_option_groups.filter (fun g => (g.breakfast_id : Int) = bid)

/-- SELECT from breakfast_options WHERE breakfast_id = ? AND id IN (?).
The driver expands an empty id list to the invalid SQL fragment IN (),
so the query throws in that case (modelled as none). -/
def optionsIn (db : DB) (bid : Int) (ids : List Int) : Option (List BreakfastOptionRow) :=
  if ids = [] then none
  else some (db.breakfast_options.filter (fun o => (o.breakfast_id : Int) = bid ∧ ids.contains (o.id : Int)))

/-- The sale-price-overrides-regular-price base price of a menu item. -/
def basePrice (mi : MenuItemRow) : Money :=
  match mi.sale_price with
  | some sp => sp
  | none => mi.regular_price

/-- The supplement section of menu-line validation (lines 93-103):
additional price of the referenced supplement for that specific item, or
a CatalogViolation when the association is missing. -/
def supplementAddon (db : DB) (it : ItemLine) : Except HandlerErr Money :=
  if truthy it.supplement_id then
    match it.supplement_id with
    | some sid =>
      match findSupplement db it.item_id sid with
      | none => .error (.bad (.invalidSupplement sid it.item_id))
      | some s => .ok s.additional_price
    | none => .ok 0
  else .ok 0

/-- Validation of one menu-item cart line (orderRoutes.js lines 70-109):
field checks, catalog availability, supplement association, unit-price
tolerance. Returns the server-computed unit price (itemTotal). -/
def validateItemLine (db : DB) (it : ItemLine) : Except HandlerErr Money :=
  if it.item_id ≤ 0 then .error (.bad (.invalidItemId it.item_id))
  else if it.quantity ≤ 0 then .error (.bad (.invalidQuantityItem it.item_id))
  else if it.unit_price ≤ 0 then .error (.bad (.invalidUnitPriceItem it.item_id))
  else
    match findMenuItem db it.item_id with
    | none => .error (.bad (.itemUnavailable it.item_id))
    | some mi =>
      if ¬ mi.availability then .error (.bad (.itemUnavailable it.item_id))
      else
        match supplementAddon db it with
        | .error e => .error e
        | .ok addon =>
          let itemTotal := basePrice mi + addon
          if 1/100 < |it.unit_price - itemTotal| then
            .error (.bad (.unitPriceMismatchItem it.item_id itemTotal it.unit_price))
          else .ok itemTotal

/-- The items loop (lines 69-111): validates each line in order and
accumulates calculatedTotal += itemTotal * quantity. -/
def validateItems (db : DB) : List ItemLine → Except HandlerErr Money
  | [] => .ok 0
  | it :: rest =>
    match validateItemLine db it with
    | .error e => .error e
    | .ok u =>
      match validateItems db rest with
      | .error e => .error e
      | .ok t => .ok (u * it.quantity + t)

/-- The option-group section of breakfast-line validation (lines 137-168).
Returns the summed additional price of the selected options. -/
def optionCheck (db : DB) (bid : Int) : Option (List Int) → Except HandlerErr Money
  | some ids =>
    let groups := groupsFor db bid
    if 0 < groups.length then
      match optionsIn db bid ids with
      | none => .error .thrown
      | some opts =>
        if opts.length ≠ ids.length then .error (.bad (.invalidOptionIds bid))
        else
          let selectedGroups := (opts.map (fun o => o.group_id)).dedup
          if selectedGroups.length ≠ groups.length then
            .error (.bad (.optionGroupCoverage groups.length bid))
          else .ok ((opts.map (fun o => o.additional_price)).sum)
    else if 0 < ids.length then .error (.bad (.noGroupsButOptions bid))
    else .ok 0
  | none =>
    let groups := groupsFor db bid
    if 0 < groups.length then .error (.bad (.optionGroupCoverage groups.length bid))
    else .ok 0

/-- Validation of one breakfast cart line (lines 115-173): field checks,
catalog availability, option-group coverage, unit-price tolerance.
Returns the server-computed unit price (expectedPrice). -/
def validateBreakfastLine (db : DB) (l : BreakfastLine) : Except HandlerErr Money :=
  if l.breakfast_id ≤ 0 then .error (.bad (.invalidBreakfastId l.breakfast_id))
  else if l.quantity ≤ 0 then .error (.bad (.invalidQuantityBreakfast l.breakfast_id))
  else if l.unit_price ≤ 0 then .error (.bad (.invalidUnitPriceBreakfast l.breakfast_id))
  else
    match findBreakfast db l.breakfast_id with
    | none => .error (.bad (.breakfastUnavailable l.breakfast_id))
    | some b =>
      if ¬ b.availability then .error (.bad (.breakfastUnavailable l.breakfast_id))
      else
        match optionCheck db l.breakfast_id l.option_ids with
        | .error e => .error e
        | .ok addon =>
          let expected := b.price + addon
          if 1/100 < |l.unit_price - expected| then
            .error (.bad (.unitPriceMismatchBreakfast l.breakfast_id expected l.unit_price))
          else .ok expected

/-- One entry of the breakfastMap (keyed by breakfast id, insertion order
preserved). -/
structure BEntry where
  breakfast_id : Int
  quantity : Int
  unit_price : Money
  option_ids : List Int
deriving DecidableEq, Repr

/-- The in-place mutation of a map entry (lines 178-182): quantity is
added and new option ids are appended; the stored unit_price is NOT
updated. -/
def updateEntry (e : BEntry) (q : Int) (oids : Option (List Int)) : BEntry :=
  { e with
    quantity := e.quantity + q
    option_ids :=
      match oids with
      | some ids => e.option_ids ++ ids.filter (fun i => ¬ e.option_ids.contains i)
      | none => e.option_ids }

/-- The breakfastMap merge step (lines 175-182): creates the entry with
the current line's expectedPrice when absent, then mutates it. -/
def mergeEntry (m : List BEntry) (bid : Int) (q : Int) (expected : Money)
    (oids : Option (List Int)) : List BEntry :=
  if m.any (fun e => e.breakfast_id = bid) then
    m.map (fun e => if e.breakfast_id = bid then updateEntry e q oids else e)
  else
    m ++ [updateEntry ⟨bid, 0, expected, []⟩ q oids]

/-- The breakfastItems loop (lines 114-185): validates each line, merges
it into the breakfastMap and accumulates expectedPrice * quantity. -/
def validateBreakfasts (db : DB) : List BreakfastLine → List BEntry → Except HandlerErr (Money × List BEntry)
  | [], m => .ok (0, m)
  | l :: rest, m =>
    match validateBreakfastLine db l with
    | .error e => .error e
    | .ok expected =>
      match validateBreakfasts db rest (mergeEntry m l.breakfast_id l.quantity expected l.option_ids) with
      | .error e => .error e
      | .ok (t, mf) => .ok (expected * l.quantity + t, mf)

/-- The table section (lines 187-202): executed as plain pool queries,
before the promotion recomputation, the final total check and the
transaction. Returns the possibly-updated store and the table row as it
was read (used later for the tableStatusUpdate event guard). -/
def tableCheck (db : DB) (table_id : Option Int) : Except HandlerErr (DB × Option TableRow) :=
  if truthy table_id then
    match table_id with
    | none => .ok (db, none)
    | some tid =>
      match db.tables.find? (fun t => (t.id : Int) = tid) with
      | none => .error (.bad .tableDoesNotExist)
      | some t =>
        if t.status = "reserved" then .error (.bad .tableReserved)
        else if t.status ≠ "occupied" then
          .ok ({ db with
                 tables := db.tables.map (fun r => if (r.id : Int) = tid then { r with status := "occupied" } else r) },
               some t)
        else .ok (db, some t)
  else .ok (db, none)

/-- SELECT from promotions WHERE id = ? AND active = TRUE AND NOW()
BETWEEN start_date AND end_date. -/
def findActivePromo (db : DB) (pid : Int) (now : Int) : Option PromotionRow :=
  db.promotions.find? (fun p =>
    (p.id : Int) = pid ∧ p.active ∧ p.start_date ≤ now ∧ now ≤ p.end_date)

/-- Whether the promotion's scoped item matches a line
(!promo.item_id || item.item_id === promo.item_id). -/
def promoApplies (scope : Option Nat) (iid : Int) : Bool :=
  match scope with
  | none => true
  | some s => s = 0 ∨ (s : Int) = iid

/-- Recomputed price of one menu-item line inside the promotion branch
(lines 215-228); a missing catalog row makes the handler throw (none). -/
def promoMenuLine (db : DB) (discount : Money) (scope : Option Nat) (it : ItemLine) : Option Money :=
  match findMenuItem db it.item_id with
  | none => none
  | some mi =>
    let withBase := basePrice mi * it.quantity
    let itemPrice :=
      if truthy it.supplement_id then
        match it.supplement_id with
        | some sid =>
          match findSupplement db it.item_id sid with
          | some s => withBase + s.additional_price * it.quantity
          | none => withBase
        | none => withBase
      else withBase
    some (if promoApplies scope it.item_id then itemPrice * (1 - discount) else itemPrice)

/-- Recomputed price of one breakfast line inside the promotion branch
(lines 232-244): always at full price, never discounted. -/
def promoBreakfastLine (db : DB) (l : BreakfastLine) : Option Money :=
  match findBreakfast db l.breakfast_id with
  | none => none
  | some b =>
    let base := b.price * l.quantity
    match l.option_ids with
    | some ids =>
      match optionsIn db l.breakfast_id ids with
      | none => none
      | some opts => some (base + (opts.map (fun o => o.additional_price)).sum * l.quantity)
    | none => some base

/-- Sum of the promotion-branch menu-line recomputations. -/
def promoMenuTotal (db : DB) (discount : Money) (scope : Option Nat) : List ItemLine → Option Money
  | [] => some 0
  | it :: rest =>
    match promoMenuLine db discount scope it with
    | none => none
    | some p =>
      match promoMenuTotal db discount scope rest with
      | none => none
      | some t => some (p + t)

/-- Sum of the promotion-branch breakfast-line recomputations. -/
def promoBreakfastTotal (db : DB) : List BreakfastLine → Option Money
  | [] => some 0
  | l :: rest =>
    match promoBreakfastLine db l with
    | none => none
    | some p =>
      match promoBreakfastTotal db rest with
      | none => none
      | some t => some (p + t)

/-- The full promotion recomputation (lines 212-247): promoCalculatedPrice
over the original (unmerged) cart lines. -/
def promoRecompute (db : DB) (discount : Money) (scope : Option Nat)
    (its : List ItemLine) (bls : List BreakfastLine) : Option Money :=
  match promoMenuTotal db discount scope its with
  | none => none
  | some a =>
    match promoBreakfastTotal db bls with
    | none => none
    | some b => some (a + b)

/-- The deterministic content hashed into the duplicate fingerprint
(line 41): items, breakfastItems, table_id, order_type, total_price and
request_id; sha256 of the JSON is modelled as the tuple itself. -/
structure Fingerprint where
  items : Option (List ItemLine)
  breakfastItems : Option (List BreakfastLine)
  table_id : Option Int
  order_type : String
  total_price : Money
  request_id : String
deriving DecidableEq, Repr

/-- Fingerprint of a request. -/
def fingerprintOf (req : OrderRequest) : Fingerprint :=
  ⟨req.items, req.breakfastItems, req.table_id, req.order_type, req.total_price, req.request_id⟩

/-- The in-process recentRequests map: fingerprints with their
registration times; each setTimeout removes its entry 15 seconds after
registration. -/
abbrev GuardState := List (Fingerprint × Int)

/-- Entries whose 15-second timer has fired by the current time are gone. -/
def purgeGuard (g : GuardState) (now : Int) : GuardState :=
  g.filter (fun e => now < e.2 + 15)

/-- isHexDigit over the UUID alphabet. -/
def isHexChar (c : Char) : Bool :=
  c.isDigit || (('a' ≤ c) && (c ≤ 'f')) || (('A' ≤ c) && (c ≤ 'F'))

/-- The request_id regex of line 34: 8-4-4-4-12 hex digits separated by
hyphens. -/
def isValidRequestId (s : String) : Bool :=
  let cs := s.data
  cs.length = 36 &&
  (List.range 36).all (fun i =>
    if i = 8 ∨ i = 13 ∨ i = 18 ∨ i = 23 then cs.getD i ' ' = '-'
    else isHexChar (cs.getD i ' '))

/-- The x || null normalisation for the optional delivery address (an
empty string is falsy and stored as NULL). -/
def addrOrNull (o : Option String) : Option String :=
  match o with
  | some "" => none
  | x => x

/-- INSERT INTO orders (line 261): approved defaults to false. -/
def DB.insertOrder (db : DB) (total : Money) (otype : String) (addr : Option String)
    (pid tid : Option Int) (sess : String) : DB × Nat :=
  ({ db with
     orders := db.orders ++ [⟨db.nextOrderId, total, otype, addr, pid, tid, sess, false⟩]
     nextOrderId := db.nextOrderId + 1 }, db.nextOrderId)

/-- INSERT INTO order_items (lines 269 and 278). -/
def DB.insertOrderItem (db : DB) (oid : Nat) (iid bid : Option Int) (q : Int)
    (up : Money) (sid : Option Int) : DB × Nat :=
  ({ db with
     order_items := db.order_items ++ [⟨db.nextOrderItemId, oid, iid, bid, q, up, sid⟩]
     nextOrderItemId := db.nextOrderItemId + 1 }, db.nextOrderItemId)

/-- INSERT INTO breakfast_order_options (line 285). -/
def DB.insertBOO (db : DB) (oiId : Nat) (optId : Int) : DB :=
  { db with breakfast_order_options := db.breakfast_order_options ++ [⟨oiId, optId⟩] }

/-- INSERT INTO notifications (line 326). -/
def DB.insertNotification (db : DB) (ty : String) (refId : Nat) (msg : String) : DB × Nat :=
  ({ db with
     notifications := db.notifications ++ [⟨db.nextNotificationId, ty, refId, msg⟩]
     nextNotificationId := db.nextNotificationId + 1 }, db.nextNotificationId)

/-- Connection-local transaction state: the pending store plus a step
counter numbering the INSERT statements issued so far. -/
structure Txn where
  db : DB
  step : Nat
deriving DecidableEq, Repr

/-- One INSERT on the transaction connection; the injected fault schedule
makes the statement at index failAt throw. -/
def txInsert (failAt : Option Nat) (t : Txn) (f : DB → DB) : Option Txn :=
  if failAt = some t.step then none
  else some ⟨f t.db, t.step + 1⟩

/-- The menu-line insert loop (lines 267-274): stores the client-declared
unit price and the raw quantity of each original cart line. -/
def insertMenuLines (failAt : Option Nat) (oid : Nat) : List ItemLine → Txn → Option Txn
  | [], t => some t
  | it :: rest, t =>
    match txInsert failAt t (fun db =>
        (db.insertOrderItem oid (some it.item_id) none it.quantity it.unit_price (orNull it.supplement_id)).1) with
    | none => none
    | some t' => insertMenuLines failAt oid rest t'

/-- The per-line breakfast option insert loop (lines 283-290). -/
def insertOptionRows (failAt : Option Nat) (oiId : Nat) : List Int → Txn → Option Txn
  | [], t => some t
  | o :: rest, t =>
    match txInsert failAt t (fun db => db.insertBOO oiId o) with
    | none => none
    | some t' => insertOptionRows failAt oiId rest t'

/-- The merged breakfast-line insert loop (lines 276-292): one order_items
row per breakfastMap entry plus its option rows. -/
def insertBreakfastLines (failAt : Option Nat) (oid : Nat) : List BEntry → Txn → Option Txn
  | [], t => some t
  | e :: rest, t =>
    let oiId := t.db.nextOrderItemId
    match txInsert failAt t (fun db =>
        (db.insertOrderItem oid none (some e.breakfast_id) e.quantity e.unit_price none).1) with
    | none => none
    | some t1 =>
      match insertOptionRows failAt oiId e.option_ids t1 with
      | none => none
      | some t2 => insertBreakfastLines failAt oid rest t2

/-- table_number joined into orderDetails, with the || N/A fallback. -/
def tableNumberFor (db : DB) (tid : Option Int) : String :=
  match tid with
  | some t =>
    match db.tables.find? (fun r => (r.id : Int) = t) with
    | some r => toString r.table_number
    | none => "N/A"
  | none => "N/A"

/-- Staff notification message (lines 323-325). -/
def notifMessage (db : DB) (req : OrderRequest) (oid : Nat) : String :=
  if req.order_type = "local" then
    s!"New order #{oid} for Table {tableNumberFor db (orNull req.table_id)}"
  else
    s!"New delivery order #{oid} for {req.delivery_address.getD ⟨[]⟩}"

/-- The order persistence transaction (lines 257-335): order header, menu
lines, merged breakfast lines with their option rows, staff notification,
then commit. A fault at any insert returns none (rollback: the pending
state is discarded). On success returns the committed store, the order id
and the notification id. -/
def runTransaction (db : DB) (req : OrderRequest) (merged : List BEntry) (total : Money)
    (sess : String) (failAt : Option Nat) : Option (DB × Nat × Nat) :=
  let oid := db.nextOrderId
  match txInsert failAt ⟨db, 0⟩ (fun d =>
      (d.insertOrder total req.order_type (addrOrNull req.delivery_address)
        (orNull req.promotion_id) (orNull req.table_id) sess).1) with
  | none => none
  | some t1 =>
    match insertMenuLines failAt oid (req.items.getD []) t1 with
    | none => none
    | some t2 =>
      match insertBreakfastLines failAt oid merged t2 with
      | none => none
      | some t3 =>
        let nid := t3.db.nextNotificationId
        match txInsert failAt t3 (fun d =>
            (d.insertNotification "order" oid (notifMessage t3.db req oid)).1) with
        | none => none
        | some t4 => some (t4.db, oid, nid)

/-- Result of a handler invocation: new store, new guard state, HTTP
response and the realtime events emitted. -/
structure HandlerOut where
  db : DB
  guard : GuardState
  resp : Resp
  events : List Event
deriving DecidableEq, Repr

/-- Emptiness of an optional request array
(!xs || !Array.isArray(xs) || xs.length === 0). -/
def emptyArr {α : Type} : Option (List α) → Bool
  | none => true
  | some l => l.isEmpty

/-- Absence of a usable delivery address
(!delivery_address || !delivery_address.trim(): the trimmed string is
empty exactly when every character is whitespace). -/
def blankAddr : Option String → Bool
  | none => true
  | some a => a.data.all (fun c => c.isWhitespace)

/-- The promotion adjustment stage (lines 204-249): when a truthy
promotion reference matches a currently active promotion, the recomputed
promoCalculatedPrice replaces the accumulated baseTotal; otherwise the
stage silently keeps baseTotal. -/
def promoStage (db1 : DB) (req : OrderRequest) (now : Int) (baseTotal : Money) :
    Except HandlerErr Money :=
  if truthy req.promotion_id then
    match req.promotion_id with
    | some pid =>
      match findActivePromo db1 pid now with
      | some p =>
        match promoRecompute db1 (p.discount_percentage / 100) p.item_id
            (req.items.getD []) (req.breakfastItems.getD []) with
        | none => .error .thrown
        | some v => .ok v
      | none => .ok baseTotal
    | none => .ok baseTotal
  else .ok baseTotal

/-- The handler body from the structural checks onward (lines 50-370),
entered with the duplicate fingerprint already registered in g. -/
def postValidation (db : DB) (g : GuardState) (req : OrderRequest) (now : Int)
    (sess : String) (failAt : Option Nat) : HandlerOut :=
  if emptyArr req.items ∧ emptyArr req.breakfastItems then
    ⟨db, g, .badRequest .emptyItems, []⟩
  else if ¬ (req.order_type = "local" ∨ req.order_type = "delivery") then
    ⟨db, g, .badRequest .invalidOrderType, []⟩
  else if req.order_type = "local" ∧ ¬ truthy req.table_id then
    ⟨db, g, .badRequest .tableIdRequired, []⟩
  else if req.order_type = "delivery" ∧ blankAddr req.delivery_address then
    ⟨db, g, .badRequest .deliveryAddressRequired, []⟩
  else
    match validateItems db (req.items.getD []) with
    | .error (.bad m) => ⟨db, g, .badRequest m, []⟩
    | .error .thrown => ⟨db, g, .serverError, []⟩
    | .ok itemsTotal =>
      match validateBreakfasts db (req.breakfastItems.getD []) [] with
      | .error (.bad m) => ⟨db, g, .badRequest m, []⟩
      | .error .thrown => ⟨db, g, .serverError, []⟩
      | .ok (bTotal, merged) =>
        match tableCheck db req.table_id with
        | .error (.bad m) => ⟨db, g, .badRequest m, []⟩
        | .error .thrown => ⟨db, g, .serverError, []⟩
        | .ok (db1, tOpt) =>
          match promoStage db1 req now (itemsTotal + bTotal) with
          | .error (.bad m) => ⟨db1, g, .badRequest m, []⟩
          | .error .thrown => ⟨db1, g, .serverError, []⟩
          | .ok calculatedTotal =>
            if 1/100 < |req.total_price - calculatedTotal| then
              ⟨db1, g, .badRequest (.totalPriceMismatch calculatedTotal req.total_price), []⟩
            else
              match runTransaction db1 req merged calculatedTotal sess failAt with
              | none => ⟨db1, g, .serverError, []⟩
              | some (db2, oid, nid) =>
                let tblEvents : List Event :=
                  if truthy req.table_id then
                    match tOpt with
                    | some t =>
                      if t.status ≠ "occupied" then
                        [.tableStatusUpdate (req.table_id.getD 0) "occupied"]
                      else []
                    | none => []
                  else []
                ⟨db2, g, .created oid, .newOrder oid :: tblEvents ++ [.newNotification nid]⟩

/-- The POST /orders handler (lines 17-375): request_id validation,
duplicate-fingerprint guard, then the validation, pricing and persistence
pipeline. -/
def postOrders (db : DB) (guard : GuardState) (req : OrderRequest) (now : Int)
    (sess : String) (failAt : Option Nat) : HandlerOut :=
  if ¬ isValidRequestId req.request_id then
    ⟨db, guard, .badRequest .invalidRequestId, []⟩
  else
    let g := purgeGuard guard now
    let fp := fingerprintOf req
    if g.any (fun e => e.1 = fp) then ⟨db, g, .tooManyRequests, []⟩
    else postValidation db (g ++ [(fp, now)]) req now sess failAt

/-- The POST /orders/:id/approve handler (lines 532-597). -/
def approveOrder (db : DB) (authorized : Bool) (idArg : Int) : DB × Resp × List Event :=
  if ¬ authorized then (db, .forbidden, [])
  else if idArg ≤ 0 then (db, .badRequest .invalidOrderId, [])
  else
    match db.orders.find? (fun o => (o.id : Int) = idArg) with
    | none => (db, .notFound, [])
    | some o =>
      if o.approved then (db, .badRequest .alreadyApproved, [])
      else
        ({ db with
           orders := db.orders.map (fun r => if (r.id : Int) = idArg then { r with approved := true } else r) },
         .okMsg,
         [.orderApprovedSession o.session_id o.id, .orderApprovedBroadcast o.id])

/-- The order row GET /orders/:id reads (404 when absent, modelled as
none). -/
def getOrderById (db : DB) (idArg : Int) : Option OrderRow :=
  if idArg ≤ 0 then none
  else db.orders.find? (fun o => (o.id : Int) = idArg)

/-- Spec-side supplement addition for a menu-item line, written from the
claim text (0 when no supplement is referenced). -/
def specAddon (db : DB) (it : ItemLine) : Money :=
  if truthy it.supplement_id then
    match it.supplement_id with
    | some sid =>
      match findSupplement db it.item_id sid with
      | some s => s.additional_price
      | none => 0
    | none => 0
  else 0

/-- Spec-side expected unit price of a menu-item line, written from the
claim text: server base price (non-null sale price overrides the regular
price) plus the supplement additional price. -/
def specMenuUnit (db : DB) (it : ItemLine) : Money :=
  match findMenuItem db it.item_id with
  | none => 0
  | some mi => basePrice mi + specAddon db it

/-- Spec-side summed additional price of a breakfast line's selected
options (0 when no options are referenced). -/
def specOptAddon (db : DB) (bid : Int) (oids : Option (List Int)) : Money :=
  match oids with
  | some ids =>
    ((db.breakfast_options.filter
        (fun o => (o.breakfast_id : Int) = bid ∧ ids.contains (o.id : Int))).map
      (fun o => o.additional_price)).sum
  | none => 0

/-- Spec-side expected unit price of a breakfast line, written from the
claim text: catalog base price plus the sum of the selected options'
additional prices. -/
def specBreakfastUnit (db : DB) (l : BreakfastLine) : Money :=
  match findBreakfast db l.breakfast_id with
  | none => 0
  | some b => b.price + specOptAddon db l.breakfast_id l.option_ids

/-- Spec-side authoritative cart total without a promotion, written from
the claim text: sum over all lines of (base price + addon prices) times
quantity. -/
def specCartTotal (db : DB) (req : OrderRequest) : Money :=
  ((req.items.getD []).map (fun it => specMenuUnit db it * it.quantity)).sum +
  ((req.breakfastItems.getD []).map (fun l => specBreakfastUnit db l * l.quantity)).sum

/-- Spec-side promotion-adjusted total, written from the claim text: the
percentage discount applies exactly to the menu-item lines the promotion
scopes (all of them when unscoped), and every breakfast line stays at
full validated price. -/
def specPromoTotal (db : DB) (req : OrderRequest) (d : Money) (scope : Option Nat) : Money :=
  ((req.items.getD []).map (fun it =>
    specMenuUnit db it * it.quantity * (if promoApplies scope it.item_id then 1 - d else 1))).sum +
  ((req.breakfastItems.getD []).map (fun l => specBreakfastUnit db l * l.quantity)).sum

/-- Number of persisted rows referencing an order id across the order,
line, option-selection and notification tables. -/
def rowsForOrder (db : DB) (oid : Nat) : Nat :=
  (db.orders.filter (fun o => o.id = oid)).length +
  (db.order_items.filter (fun i => i.order_id = oid)).length +
  (db.breakfast_order_options.filter (fun b =>
    (db.order_items.filter (fun i => i.order_id = oid)).any (fun i => i.id = b.order_item_id))).length +
  (db.notifications.filter (fun n => n.reference_id = oid)).length

/-- A syntactically valid request_id used by the concrete scenarios. -/
def uuid0 : String := "00000000-0000-0000-0000-000000000000"

/-- Catalog with one available menu item priced 10, nothing else. -/
def wdb1 : DB := ⟨[⟨1, true, 10, none⟩], [], [], [], [], [], [], [], [], [], [], 1, 1, 1⟩

/-- Valid delivery cart: two units of item 1 at unit price 10, declared
total 20. -/
def wreq1 : OrderRequest :=
  ⟨some [⟨1, 2, 10, none⟩], none, 20, "delivery", some "addr", none, none, uuid0⟩

/-- Catalog for the available-table scenario: item 1 priced 10, table 1
available. -/
def cdb2 : DB :=
  ⟨[⟨1, true, 10, none⟩], [], [], [], [], [⟨1, 5, "available"⟩], [], [], [], [], [], 1, 1, 1⟩

/-- Local cart for table 1 with a declared total of 19 against an
authoritative total of 20. -/
def creq2 : OrderRequest :=
  ⟨some [⟨1, 2, 10, none⟩], none, 19, "local", none, none, some 1, uuid0⟩

/-- Breakfast catalog: breakfast 1 priced 5 with one option group 10
holding options 100 (+0) and 101 (+1). -/
def cdb3 : DB :=
  ⟨[], [], [⟨1, true, 5⟩], [⟨10, 1⟩], [⟨100, 1, 10, 0⟩, ⟨101, 1, 10, 1⟩], [], [], [], [], [], [], 1, 1, 1⟩

/-- Two cart lines for breakfast 1 with different option selections (unit
prices 5 and 6), declared total 11. -/
def creq3 : OrderRequest :=
  ⟨none, some [⟨1, 1, 5, some [100]⟩, ⟨1, 1, 6, some [101]⟩], 11, "delivery", some "addr",
   none, none, uuid0⟩

/-- One breakfast line selecting both options of the single group (unit
price 6), declared total 6. -/
def creq4 : OrderRequest :=
  ⟨none, some [⟨1, 1, 6, some [100, 101]⟩], 6, "delivery", some "addr", none, none, uuid0⟩

/-- Catalog with item 1 priced 10 and an active 50 percent promotion 7
scoped to item 1 (window 0..100). -/
def wdb5 : DB :=
  ⟨[⟨1, true, 10, none⟩], [], [], [], [], [], [⟨7, true, 50, some 1, 0, 100⟩], [], [], [], [], 1, 1, 1⟩

/-- Delivery cart referencing promotion 7: one unit of item 1 at unit
price 10, declared total 5. -/
def wreq5 : OrderRequest :=
  ⟨some [⟨1, 1, 10, none⟩], none, 5, "delivery", some "addr", some 7, none, uuid0⟩

/-- Reserved-table catalog: item 1 priced 10, table 1 reserved. -/
def wdb9 : DB :=
  ⟨[⟨1, true, 10, none⟩], [], [], [], [], [⟨1, 5, "reserved"⟩], [], [], [], [], [], 1, 1, 1⟩

/-- Local cart for the reserved table 1 with correct declared total 20. -/
def wreq9 : OrderRequest :=
  ⟨some [⟨1, 2, 10, none⟩], none, 20, "local", none, none, some 1, uuid0⟩

/-- Store with a fresh order 1 and an already-approved order 2. -/
def wdb8 : DB :=
  ⟨[], [], [], [], [], [], [],
   [⟨1, 10, "delivery", some "addr", none, none, "s", false⟩,
    ⟨2, 10, "delivery", some "addr", none, none, "s", true⟩],
   [], [], [], 3, 1, 1⟩

/-- Delivery cart referencing the nonexistent promotion 9, declared total
20. -/
def wreq10 : OrderRequest :=
  ⟨some [⟨1, 2, 10, none⟩], none, 20, "delivery", some "addr", some 9, none, uuid0⟩

end CoffeeOrders

deriving instance DecidableEq for Except

attribute [local semireducible] Rat.add Rat.mul Rat.sub Rat.inv Rat.ofScientific

namespace CoffeeOrders

theorem supplementAddon_ok {db : DB} {it : ItemLine} {a : Money}
    (h : supplementAddon db it = .ok a) : a = specAddon db it := by
  by_cases ht : truthy it.supplement_id
  · cases hs : it.supplement_id with
    | none => simp_all [supplementAddon, specAddon]
    | some sid =>
      cases hf : findSupplement db it.item_id sid with
      | none => simp_all [supplementAddon, specAddon]
      | some s => simp_all [supplementAddon, specAddon]
  · simp_all [supplementAddon, specAddon]

theorem validateItemLine_ok {db : DB} {it : ItemLine} {u : Money}
    (h : validateItemLine db it = .ok u) : u = specMenuUnit db it := by
  unfold validateItemLine at h
  split at h
  · exact absurd h (by simp)
  split at h
  · exact absurd h (by simp)
  split at h
  · exact absurd h (by simp)
  split at h
  · exact absurd h (by simp)
  case _ mi hmi =>
    split at h
    · exact absurd h (by simp)
    case _ hav =>
      cases hsa : supplementAddon db it with
      | error e => rw [hsa] at h; exact absurd h (by simp)
      | ok addon =>
        rw [hsa] at h
        simp only at h
        split at h
        · exact absurd h (by simp)
        · simp only [Except.ok.injEq] at h
          rw [← h, specMenuUnit, hmi, supplementAddon_ok hsa]

theorem validateItems_ok {db : DB} {its : List ItemLine} {t : Money}
    (h : validateItems db its = .ok t) :
    t = (its.map (fun it => specMenuUnit db it * (it.quantity : ℚ))).sum := by
  induction its generalizing t with
  | nil => simp only [validateItems, Except.ok.injEq] at h; simp [← h]
  | cons it rest ih =>
    unfold validateItems at h
    cases h1 : validateItemLine db it with
    | error e => rw [h1] at h; simp at h
    | ok u =>
      rw [h1] at h
      cases h2 : validateItems db rest with
      | error e => rw [h2] at h; simp at h
      | ok t2 =>
        rw [h2] at h
        simp only [Except.ok.injEq] at h
        subst h
        rw [validateItemLine_ok h1, ih h2]
        simp

theorem optionCheck_ok {db : DB} {bid : Int} {oids : Option (List Int)} {a : Money}
    (h : optionCheck db bid oids = .ok a) :
    a = specOptAddon db bid oids := by
  cases oids with
  | none =>
    simp only [optionCheck] at h
    split at h
    · simp at h
    · simp only [Except.ok.injEq] at h; simp [← h, specOptAddon]
  | some ids =>
    simp only [optionCheck] at h
    simp only [specOptAddon]
    split at h
    · cases ho : optionsIn db bid ids with
      | none => simp only [ho] at h; simp at h
      | some opts =>
        simp only [ho] at h
        split at h
        · simp at h
        · split at h
          · simp at h
          · simp only [Except.ok.injEq] at h
            unfold optionsIn at ho
            split at ho
            · simp at ho
            · simp only [Option.some.injEq] at ho
              subst h
              rw [ho]
    · split at h
      · simp at h
      · simp only [Except.ok.injEq] at h
        rename_i hg hlen
        have hids : ids = [] := List.length_eq_zero.mp (by omega)
        subst hids
        simp [← h]

theorem validateBreakfastLine_ok {db : DB} {l : BreakfastLine} {u : Money}
    (h : validateBreakfastLine db l = .ok u) : u = specBreakfastUnit db l := by
  unfold validateBreakfastLine at h
  split at h
  · exact absurd h (by simp)
  split at h
  · exact absurd h (by simp)
  split at h
  · exact absurd h (by simp)
  split at h
  · exact absurd h (by simp)
  case _ b hb =>
    split at h
    · exact absurd h (by simp)
    case _ hav =>
      cases hoc : optionCheck db l.breakfast_id l.option_ids with
      | error e => rw [hoc] at h; exact absurd h (by simp)
      | ok addon =>
        rw [hoc] at h
        simp only at h
        split at h
        · exact absurd h (by simp)
        · simp only [Except.ok.injEq] at h
          rw [← h, specBreakfastUnit, hb, optionCheck_ok hoc]

theorem validateBreakfasts_ok {db : DB} {ls : List BreakfastLine} :
    ∀ {m : List BEntry} {t : Money} {mf : List BEntry},
    validateBreakfasts db ls m = .ok (t, mf) →
    t = (ls.map (fun l => specBreakfastUnit db l * (l.quantity : ℚ))).sum := by
  induction ls with
  | nil =>
    intro m t mf h
    simp only [validateBreakfasts, Except.ok.injEq, Prod.mk.injEq] at h
    simp [← h.1]
  | cons l rest ih =>
    intro m t mf h
    unfold validateBreakfasts at h
    cases h1 : validateBreakfastLine db l with
    | error e => rw [h1] at h; simp at h
    | ok u =>
      rw [h1] at h
      simp only at h
      cases h2 : validateBreakfasts db rest (mergeEntry m l.breakfast_id l.quantity u l.option_ids) with
      | error e => simp only [h2] at h; simp at h
      | ok p =>
        simp only [h2] at h
        cases p with
        | mk t2 m2 =>
          simp only [Except.ok.injEq, Prod.mk.injEq] at h
          rw [← h.1, validateBreakfastLine_ok h1, ih h2]
          simp

theorem postOrders_fresh {db : DB} {guard : GuardState} {req : OrderRequest} {now : Int}
    {sess : String} {failAt : Option Nat}
    (huuid : isValidRequestId req.request_id = true)
    (hdup : (purgeGuard guard now).any (fun e => e.1 = fingerprintOf req) = false) :
    postOrders db guard req now sess failAt =
      postValidation db (purgeGuard guard now ++ [(fingerprintOf req, now)]) req now sess failAt := by
  unfold postOrders
  rw [if_neg (by simp [huuid])]
  simp only [hdup, Bool.false_eq_true, if_false]

theorem postValidation_guard (db : DB) (g : GuardState) (req : OrderRequest) (now : Int)
    (sess : String) (failAt : Option Nat) : (postValidation db g req now sess failAt).guard = g := by
  unfold postValidation
  repeat' split
  all_goals rfl

theorem postValidation_resp_ne_dup (db : DB) (g : GuardState) (req : OrderRequest) (now : Int)
    (sess : String) (failAt : Option Nat) :
    (postValidation db g req now sess failAt).resp ≠ .tooManyRequests := by
  unfold postValidation
  repeat' split
  all_goals simp

theorem postValidation_total_check {db : DB} {g : GuardState} {req : OrderRequest} {now : Int}
    {sess : String} {failAt : Option Nat} {tI tB : Money} {merged : List BEntry}
    {db1 : DB} {tOpt : Option TableRow} {v : Money}
    (hne : ¬ (emptyArr req.items = true ∧ emptyArr req.breakfastItems = true))
    (hot : req.order_type = "local" ∨ req.order_type = "delivery")
    (htl : ¬ (req.order_type = "local" ∧ ¬ truthy req.table_id = true))
    (hda : ¬ (req.order_type = "delivery" ∧ blankAddr req.delivery_address = true))
    (hI : validateItems db (req.items.getD []) = .ok tI)
    (hB : validateBreakfasts db (req.breakfastItems.getD []) [] = .ok (tB, merged))
    (hT : tableCheck db req.table_id = .ok (db1, tOpt))
    (hP : promoStage db1 req now (tI + tB) = .ok v) :
    postValidation db g req now sess failAt =
      (if 1/100 < |req.total_price - v| then
        ⟨db1, g, .badRequest (.totalPriceMismatch v req.total_price), []⟩
      else
        match runTransaction db1 req merged v sess failAt with
        | none => ⟨db1, g, .serverError, []⟩
        | some (db2, oid, nid) =>
          ⟨db2, g, .created oid,
            .newOrder oid ::
              (if truthy req.table_id then
                match tOpt with
                | some t =>
                  if t.status ≠ "occupied" then
                    [.tableStatusUpdate (req.table_id.getD 0) "occupied"]
                  else []
                | none => []
              else []) ++ [.newNotification nid]⟩) := by
  unfold postValidation
  rw [if_neg hne, if_neg (not_not_intro hot), if_neg htl, if_neg hda]
  simp only [hI, hB, hT, hP]

theorem postValidation_table_error {db : DB} {g : GuardState} {req : OrderRequest} {now : Int}
    {sess : String} {failAt : Option Nat} {tI tB : Money} {merged : List BEntry} {m : ErrMsg}
    (hne : ¬ (emptyArr req.items = true ∧ emptyArr req.breakfastItems = true))
    (hot : req.order_type = "local" ∨ req.order_type = "delivery")
    (htl : ¬ (req.order_type = "local" ∧ ¬ truthy req.table_id = true))
    (hda : ¬ (req.order_type = "delivery" ∧ blankAddr req.delivery_address = true))
    (hI : validateItems db (req.items.getD []) = .ok tI)
    (hB : validateBreakfasts db (req.breakfastItems.getD []) [] = .ok (tB, merged))
    (hT : tableCheck db req.table_id = .error (.bad m)) :
    postValidation db g req now sess failAt = ⟨db, g, .badRequest m, []⟩ := by
  unfold postValidation
  rw [if_neg hne, if_neg (not_not_intro hot), if_neg htl, if_neg hda]
  simp only [hI, hB, hT]

theorem promoStage_inactive {db1 : DB} {req : OrderRequest} {now : Int} {b : Money}
    (hnp : ∀ pid, req.promotion_id = some pid → findActivePromo db1 pid now = none) :
    promoStage db1 req now b = .ok b := by
  unfold promoStage
  split
  · cases hp : req.promotion_id with
    | none => simp
    | some pid => simp [hnp pid hp]
  · rfl

theorem promoMenuLine_ok {db : DB} {d : Money} {scope : Option Nat} {it : ItemLine} {p : Money}
    (h : promoMenuLine db d scope it = some p) :
    p = specMenuUnit db it * (it.quantity : ℚ) *
      (if promoApplies scope it.item_id then 1 - d else 1) := by
  unfold promoMenuLine at h
  cases hm : findMenuItem db it.item_id with
  | none => rw [hm] at h; simp at h
  | some mi =>
    rw [hm] at h
    simp only [Option.some.injEq] at h
    subst h
    unfold specMenuUnit specAddon
    rw [hm]
    by_cases ht : truthy it.supplement_id
    · cases hs : it.supplement_id with
      | none => rw [hs] at ht; simp [truthy] at ht
      | some sid =>
        rw [hs] at ht
        cases hf : findSupplement db it.item_id sid with
        | none =>
          simp only [hs, hf, ht, eq_self_iff_true, if_true, ite_self]
          split <;> ring
        | some s =>
          simp only [hs, hf, ht, eq_self_iff_true, if_true, ite_self]
          split <;> ring
    · simp only [ht, if_false, Bool.false_eq_true, ite_self]
      split <;> ring

theorem promoMenuTotal_ok {db : DB} {d : Money} {scope : Option Nat} {its : List ItemLine}
    {t : Money} (h : promoMenuTotal db d scope its = some t) :
    t = (its.map (fun it => specMenuUnit db it * (it.quantity : ℚ) *
      (if promoApplies scope it.item_id then 1 - d else 1))).sum := by
  induction its generalizing t with
  | nil => simp only [promoMenuTotal, Option.some.injEq] at h; simp [← h]
  | cons it rest ih =>
    unfold promoMenuTotal at h
    cases h1 : promoMenuLine db d scope it with
    | none => rw [h1] at h; simp at h
    | some p =>
      rw [h1] at h
      cases h2 : promoMenuTotal db d scope rest with
      | none => rw [h2] at h; simp at h
      | some t2 =>
        rw [h2] at h
        simp only [Option.some.injEq] at h
        subst h
        rw [promoMenuLine_ok h1, ih h2]
        simp

theorem promoBreakfastLine_ok {db : DB} {l : BreakfastLine} {p : Money}
    (h : promoBreakfastLine db l = some p) :
    p = specBreakfastUnit db l * (l.quantity : ℚ) := by
  unfold promoBreakfastLine at h
  cases hb : findBreakfast db l.breakfast_id with
  | none => rw [hb] at h; simp at h
  | some b =>
    rw [hb] at h
    simp only at h
    unfold specBreakfastUnit
    rw [hb]
    cases ho : l.option_ids with
    | none =>
      rw [ho] at h
      simp only [Option.some.injEq] at h
      subst h
      simp [specOptAddon]
    | some ids =>
      rw [ho] at h
      cases hoi : optionsIn db l.breakfast_id ids with
      | none => simp only [hoi] at h; simp at h
      | some opts =>
        simp only [hoi, Option.some.injEq] at h
        subst h
        unfold optionsIn at hoi
        split at hoi
        · simp at hoi
        · simp only [Option.some.injEq] at hoi
          simp only [specOptAddon, hoi]
          ring

theorem promoBreakfastTotal_ok {db : DB} {bls : List BreakfastLine} {t : Money}
    (h : promoBreakfastTotal db bls = some t) :
    t = (bls.map (fun l => specBreakfastUnit db l * (l.quantity : ℚ))).sum := by
  induction bls generalizing t with
  | nil => simp only [promoBreakfastTotal, Option.some.injEq] at h; simp [← h]
  | cons l rest ih =>
    unfold promoBreakfastTotal at h
    cases h1 : promoBreakfastLine db l with
    | none => rw [h1] at h; simp at h
    | some p =>
      rw [h1] at h
      cases h2 : promoBreakfastTotal db rest with
      | none => rw [h2] at h; simp at h
      | some t2 =>
        rw [h2] at h
        simp only [Option.some.injEq] at h
        subst h
        rw [promoBreakfastLine_ok h1, ih h2]
        simp

theorem promoRecompute_ok {db : DB} {d : Money} {scope : Option Nat} {its : List ItemLine}
    {bls : List BreakfastLine} {v : Money}
    (h : promoRecompute db d scope its bls = some v) :
    v = (its.map (fun it => specMenuUnit db it * (it.quantity : ℚ) *
          (if promoApplies scope it.item_id then 1 - d else 1))).sum +
        (bls.map (fun l => specBreakfastUnit db l * (l.quantity : ℚ))).sum := by
  unfold promoRecompute at h
  cases h1 : promoMenuTotal db d scope its with
  | none => rw [h1] at h; simp at h
  | some a =>
    rw [h1] at h
    cases h2 : promoBreakfastTotal db bls with
    | none => rw [h2] at h; simp at h
    | some b =>
      rw [h2] at h
      simp only [Option.some.injEq] at h
      subst h
      rw [promoMenuTotal_ok h1, promoBreakfastTotal_ok h2]

theorem tableCheck_preserves {db : DB} {tid : Option Int} {db1 : DB} {tOpt : Option TableRow}
    (h : tableCheck db tid = .ok (db1, tOpt)) :
    db1.orders = db.orders ∧ db1.order_items = db.order_items ∧
    db1.breakfast_order_options = db.breakfast_order_options ∧
    db1.notifications = db.notifications ∧ db1.nextOrderId = db.nextOrderId := by
  unfold tableCheck at h
  repeat' split at h
  all_goals first
    | (simp only [Except.ok.injEq, Prod.mk.injEq] at h
       obtain ⟨h1, h2⟩ := h
       subst h1
       exact ⟨rfl, rfl, rfl, rfl, rfl⟩)
    | simp at h

theorem txInsert_some {failAt : Option Nat} {t t' : Txn} {f : DB → DB}
    (h : txInsert failAt t f = some t') : t' = ⟨f t.db, t.step + 1⟩ := by
  unfold txInsert at h
  split at h
  · simp at h
  · simp only [Option.some.injEq] at h
    exact h.symm

theorem insertMenuLines_orders {failAt : Option Nat} {oid : Nat} {ls : List ItemLine} :
    ∀ {t t' : Txn}, insertMenuLines failAt oid ls t = some t' → t'.db.orders = t.db.orders := by
  induction ls with
  | nil =>
    intro t t' h
    simp only [insertMenuLines, Option.some.injEq] at h
    rw [← h]
  | cons it rest ih =>
    intro t t' h
    unfold insertMenuLines at h
    cases h1 : txInsert failAt t (fun db =>
        (db.insertOrderItem oid (some it.item_id) none it.quantity it.unit_price
          (orNull it.supplement_id)).1) with
    | none => rw [h1] at h; simp at h
    | some t1 =>
      rw [h1] at h
      rw [ih h, txInsert_some h1]
      rfl

theorem insertOptionRows_orders {failAt : Option Nat} {oiId : Nat} {os : List Int} :
    ∀ {t t' : Txn}, insertOptionRows failAt oiId os t = some t' → t'.db.orders = t.db.orders := by
  induction os with
  | nil =>
    intro t t' h
    simp only [insertOptionRows, Option.some.injEq] at h
    rw [← h]
  | cons o rest ih =>
    intro t t' h
    unfold insertOptionRows at h
    cases h1 : txInsert failAt t (fun db => db.insertBOO oiId o) with
    | none => rw [h1] at h; simp at h
    | some t1 =>
      rw [h1] at h
      rw [ih h, txInsert_some h1]
      rfl

theorem insertBreakfastLines_orders {failAt : Option Nat} {oid : Nat} {es : List BEntry} :
    ∀ {t t' : Txn}, insertBreakfastLines failAt oid es t = some t' → t'.db.orders = t.db.orders := by
  induction es with
  | nil =>
    intro t t' h
    simp only [insertBreakfastLines, Option.some.injEq] at h
    rw [← h]
  | cons e rest ih =>
    intro t t' h
    unfold insertBreakfastLines at h
    cases h1 : txInsert failAt t (fun db =>
        (db.insertOrderItem oid none (some e.breakfast_id) e.quantity e.unit_price none).1) with
    | none => rw [h1] at h; simp at h
    | some t1 =>
      rw [h1] at h
      simp only at h
      cases h2 : insertOptionRows failAt t.db.nextOrderItemId e.option_ids t1 with
      | none => rw [h2] at h; simp at h
      | some t2 =>
        rw [h2] at h
        rw [ih h, insertOptionRows_orders h2, txInsert_some h1]
        rfl

theorem runTransaction_orders {db : DB} {req : OrderRequest} {merged : List BEntry}
    {total : Money} {sess : String} {failAt : Option Nat} {db2 : DB} {oid nid : Nat}
    (h : runTransaction db req merged total sess failAt = some (db2, oid, nid)) :
    oid = db.nextOrderId ∧
    db2.orders = db.orders ++
      [⟨db.nextOrderId, total, req.order_type, addrOrNull req.delivery_address,
        orNull req.promotion_id, orNull req.table_id, sess, false⟩] := by
  unfold runTransaction at h
  cases h0 : txInsert failAt ⟨db, 0⟩ (fun d =>
      (d.insertOrder total req.order_type (addrOrNull req.delivery_address)
        (orNull req.promotion_id) (orNull req.table_id) sess).1) with
  | none => rw [h0] at h; simp at h
  | some t1 =>
    rw [h0] at h
    simp only at h
    cases h1 : insertMenuLines failAt db.nextOrderId (req.items.getD []) t1 with
    | none => rw [h1] at h; simp at h
    | some t2 =>
      rw [h1] at h
      simp only at h
      cases h2 : insertBreakfastLines failAt db.nextOrderId merged t2 with
      | none => rw [h2] at h; simp at h
      | some t3 =>
        rw [h2] at h
        simp only at h
        cases h3 : txInsert failAt t3 (fun d =>
            (d.insertNotification "order" db.nextOrderId
              (notifMessage t3.db req db.nextOrderId)).1) with
        | none => rw [h3] at h; simp at h
        | some t4 =>
          rw [h3] at h
          simp only [Option.some.injEq, Prod.mk.injEq] at h
          obtain ⟨hdb, hoid, hnid⟩ := h
          refine ⟨hoid.symm, ?_⟩
          rw [← hdb]
          simp only [txInsert_some h3, DB.insertNotification]
          rw [insertBreakfastLines_orders h2, insertMenuLines_orders h1]
          simp only [txInsert_some h0, DB.insertOrder]

theorem find_map_approved {l : List OrderRow} {oid : Int} {o : OrderRow}
    (h : l.find? (fun r => (r.id : Int) = oid) = some o) :
    (l.map (fun r => if (r.id : Int) = oid then { r with approved := true } else r)).find?
        (fun r => (r.id : Int) = oid) = some { o with approved := true } := by
  induction l with
  | nil => simp at h
  | cons r rest ih =>
    by_cases hr : (r.id : Int) = oid
    · rw [List.find?_cons_of_pos _ (by simp [hr])] at h
      simp only [Option.some.injEq] at h
      subst h
      simp only [List.map_cons, if_pos hr]
      rw [List.find?_cons_of_pos _ (by simp [hr])]
    · rw [List.find?_cons_of_neg _ (by simp [hr])] at h
      simp only [List.map_cons, if_neg hr]
      rw [List.find?_cons_of_neg _ (by simp [hr])]
      exact ih h

/-- C1: for every valid cart submitted to POST /orders without an active
promotion, the computed authoritative total equals the sum over all lines
of (server-side base price, with a non-null sale price overriding the
regular price, plus supplement/option additional prices) times quantity,
and the request is rejected with a 400 price-mismatch response stating
both expected and provided values exactly when the client-declared
total_price differs from this total by more than 0.01. -/
theorem c1_price_integrity
    {db : DB} {guard : GuardState} {req : OrderRequest} {now : Int} {sess : String}
    {failAt : Option Nat} {tI tB : Money} {merged : List BEntry} {db1 : DB}
    {tOpt : Option TableRow}
    (huuid : isValidRequestId req.request_id = true)
    (hdup : (purgeGuard guard now).any (fun e => e.1 = fingerprintOf req) = false)
    (hne : ¬ (emptyArr req.items = true ∧ emptyArr req.breakfastItems = true))
    (hot : req.order_type = "local" ∨ req.order_type = "delivery")
    (htl : ¬ (req.order_type = "local" ∧ ¬ truthy req.table_id = true))
    (hda : ¬ (req.order_type = "delivery" ∧ blankAddr req.delivery_address = true))
    (hI : validateItems db (req.items.getD []) = .ok tI)
    (hB : validateBreakfasts db (req.breakfastItems.getD []) [] = .ok (tB, merged))
    (hT : tableCheck db req.table_id = .ok (db1, tOpt))
    (hnp : ∀ pid, req.promotion_id = some pid → findActivePromo db1 pid now = none) :
    tI + tB = specCartTotal db req ∧
    ((postOrders db guard req now sess failAt).resp =
        .badRequest (.totalPriceMismatch (specCartTotal db req) req.total_price) ↔
      1/100 < |req.total_price - specCartTotal db req|) := by
  have hspec : tI + tB = specCartTotal db req := by
    rw [validateItems_ok hI, validateBreakfasts_ok hB]
    rfl
  refine ⟨hspec, ?_⟩
  rw [postOrders_fresh huuid hdup,
      postValidation_total_check hne hot htl hda hI hB hT (promoStage_inactive hnp), ← hspec]
  by_cases hgt : 1/100 < |req.total_price - (tI + tB)|
  · rw [if_pos hgt]
    exact ⟨fun _ => hgt, fun _ => rfl⟩
  · rw [if_neg hgt]
    constructor
    · intro hr
      exfalso
      cases hrt : runTransaction db1 req merged (tI + tB) sess failAt with
      | none => rw [hrt] at hr; simp at hr
      | some trip =>
        obtain ⟨db2, oid, nid⟩ := trip
        rw [hrt] at hr
        simp at hr
    · intro hgt2
      exact absurd hgt2 hgt

theorem c1_price_integrity_witness :
    (20 : Money) + 0 = specCartTotal wdb1 wreq1 ∧
    ((postOrders wdb1 [] wreq1 0 "s" none).resp =
        .badRequest (.totalPriceMismatch (specCartTotal wdb1 wreq1) wreq1.total_price) ↔
      1/100 < |wreq1.total_price - specCartTotal wdb1 wreq1|) :=
  @c1_price_integrity wdb1 [] wreq1 0 "s" none 20 0 [] wdb1 none
    (by decide) (by decide) (by decide) (by decide) (by decide) (by decide)
    (by decide) (by decide) (by decide) (by intro pid hp; simp [wreq1] at hp)

/-- C2 counterexample: a request that fails the final price-reconciliation
check with HTTP 400 nevertheless leaves the referenced table freshly
marked occupied, because the table update runs before the final total
check and outside the transaction. -/
theorem c2_counterexample :
    (postOrders cdb2 [] creq2 0 "s" none).resp = .badRequest (.totalPriceMismatch 20 19) ∧
    cdb2.tables = [⟨1, 5, "available"⟩] ∧
    (postOrders cdb2 [] creq2 0 "s" none).db.tables = [⟨1, 5, "occupied"⟩] := by
  decide

/-- C2 (amended): validation, catalog and per-line price errors are
reported before any write, but the table-occupied update is executed as a
separate statement before the final total check and outside the
transaction: a request rejected only by the final reconciliation check
returns 400 with no order, line, option-selection or notification rows
written, while the table update (the only write of the table-check stage)
remains in place. -/
theorem c2_table_write_outside_transaction
    {db : DB} {guard : GuardState} {req : OrderRequest} {now : Int} {sess : String}
    {failAt : Option Nat} {tI tB v : Money} {merged : List BEntry} {db1 : DB}
    {tOpt : Option TableRow}
    (huuid : isValidRequestId req.request_id = true)
    (hdup : (purgeGuard guard now).any (fun e => e.1 = fingerprintOf req) = false)
    (hne : ¬ (emptyArr req.items = true ∧ emptyArr req.breakfastItems = true))
    (hot : req.order_type = "local" ∨ req.order_type = "delivery")
    (htl : ¬ (req.order_type = "local" ∧ ¬ truthy req.table_id = true))
    (hda : ¬ (req.order_type = "delivery" ∧ blankAddr req.delivery_address = true))
    (hI : validateItems db (req.items.getD []) = .ok tI)
    (hB : validateBreakfasts db (req.breakfastItems.getD []) [] = .ok (tB, merged))
    (hT : tableCheck db req.table_id = .ok (db1, tOpt))
    (hP : promoStage db1 req now (tI + tB) = .ok v)
    (hgt : 1/100 < |req.total_price - v|) :
    (postOrders db guard req now sess failAt).resp =
      .badRequest (.totalPriceMismatch v req.total_price) ∧
    (postOrders db guard req now sess failAt).db = db1 ∧
    db1.orders = db.orders ∧ db1.order_items = db.order_items ∧
    db1.breakfast_order_options = db.breakfast_order_options ∧
    db1.notifications = db.notifications := by
  rw [postOrders_fresh huuid hdup,
      postValidation_total_check hne hot htl hda hI hB hT hP, if_pos hgt]
  obtain ⟨h1, h2, h3, h4, _⟩ := tableCheck_preserves hT
  exact ⟨rfl, rfl, h1, h2, h3, h4⟩

theorem c2_table_write_outside_transaction_witness :
    (postOrders cdb2 [] creq2 0 "s" none).resp = .badRequest (.totalPriceMismatch 20 19) ∧
    (postOrders cdb2 [] creq2 0 "s" none).db =
      { cdb2 with tables := [⟨1, 5, "occupied"⟩] } ∧
    ({ cdb2 with tables := [⟨1, 5, "occupied"⟩] } : DB).orders = cdb2.orders ∧
    ({ cdb2 with tables := [⟨1, 5, "occupied"⟩] } : DB).order_items = cdb2.order_items ∧
    ({ cdb2 with tables := [⟨1, 5, "occupied"⟩] } : DB).breakfast_order_options =
      cdb2.breakfast_order_options ∧
    ({ cdb2 with tables := [⟨1, 5, "occupied"⟩] } : DB).notifications = cdb2.notifications :=
  @c2_table_write_outside_transaction cdb2 [] creq2 0 "s" none 20 0 20 []
    { cdb2 with tables := [⟨1, 5, "occupied"⟩] } (some ⟨1, 5, "available"⟩)
    (by decide) (by decide) (by decide) (by decide) (by decide) (by decide)
    (by decide) (by decide) (by decide) (by decide) (by decide)

/-- C3: the claimed invariant fails on the code. Two breakfast cart lines
for the same breakfast with different option selections (validated unit
prices 5 and 6, one unit each) are accepted; the stored header total is
11, but the single merged stored line keeps the first line's unit price,
so the stored line totals sum to 10 - a 1.00 discrepancy, far beyond the
1-cent tolerance. -/
theorem c3_merge_breaks_total_invariant :
    (postOrders cdb3 [] creq3 0 "s" none).resp = .created 1 ∧
    validateBreakfastLine cdb3 ⟨1, 1, 5, some [100]⟩ = .ok 5 ∧
    validateBreakfastLine cdb3 ⟨1, 1, 6, some [101]⟩ = .ok 6 ∧
    ((postOrders cdb3 [] creq3 0 "s" none).db.orders.map (fun o => o.total_price)) = [11] ∧
    (((postOrders cdb3 [] creq3 0 "s" none).db.order_items.filter
        (fun i => i.order_id = 1)).map (fun i => i.unit_price * (i.quantity : ℚ))).sum = 10 ∧
    1/100 < |(11 : ℚ) - 10| := by
  decide

/-- C4 counterexample: breakfast 1 has exactly one option group, yet a
line supplying two distinct options of that same group is accepted and
the order is created, where the claim requires rejection of more than one
option from the same group. -/
theorem c4_counterexample :
    (groupsFor cdb3 1).length = 1 ∧
    (cdb3.breakfast_options.map (fun o => o.group_id)) = [10, 10] ∧
    (postOrders cdb3 [] creq4 0 "s" none).resp = .created 1 := by
  decide

/-- C4 (amended): for a breakfast with N > 0 option groups, the
option-group check accepts a supplied option list iff it is nonempty,
every id references a distinct valid option of that breakfast, and the
distinct groups covered equal the N groups; more than one option from the
same group is accepted whenever every group remains covered, and absent
option lists are rejected. -/
theorem c4_option_group_coverage {db : DB} {bid : Int} (ids : List Int)
    (hN : 0 < (groupsFor db bid).length) :
    ((∃ a, optionCheck db bid (some ids) = .ok a) ↔
      (ids ≠ [] ∧
        (db.breakfast_options.filter
          (fun o => (o.breakfast_id : Int) = bid ∧ ids.contains (o.id : Int))).length = ids.length ∧
        (((db.breakfast_options.filter
            (fun o => (o.breakfast_id : Int) = bid ∧ ids.contains (o.id : Int))).map
          (fun o => o.group_id)).dedup).length = (groupsFor db bid).length)) ∧
    ∀ a, optionCheck db bid none ≠ .ok a := by
  constructor
  · constructor
    · rintro ⟨a, ha⟩
      simp only [optionCheck] at ha
      rw [if_pos hN] at ha
      split at ha
      · simp at ha
      · rename_i opts heq
        split at ha
        · simp at ha
        · rename_i h1
          split at ha
          · simp at ha
          · rename_i h2
            unfold optionsIn at heq
            split at heq
            · simp at heq
            · rename_i hne0
              simp only [Option.some.injEq] at heq
              subst heq
              exact ⟨hne0, not_not.mp h1, not_not.mp h2⟩
    · rintro ⟨hne, hlen, hcov⟩
      refine ⟨((db.breakfast_options.filter
          (fun o => (o.breakfast_id : Int) = bid ∧ ids.contains (o.id : Int))).map
        (fun o => o.additional_price)).sum, ?_⟩
      have ho : optionsIn db bid ids =
          some (db.breakfast_options.filter
            (fun o => (o.breakfast_id : Int) = bid ∧ ids.contains (o.id : Int))) := by
        unfold optionsIn
        rw [if_neg hne]
      simp only [optionCheck]
      rw [if_pos hN]
      simp only [ho]
      rw [if_neg (not_not_intro hlen), if_neg (not_not_intro hcov)]
  · intro a ha
    simp only [optionCheck] at ha
    rw [if_pos hN] at ha
    simp at ha

theorem c4_option_group_coverage_witness :
    (((∃ a, optionCheck cdb3 1 (some [100]) = .ok a) ↔
      ([100] ≠ ([] : List Int) ∧
        (cdb3.breakfast_options.filter
          (fun o => (o.breakfast_id : Int) = 1 ∧ [100].contains (o.id : Int))).length = [100].length ∧
        (((cdb3.breakfast_options.filter
            (fun o => (o.breakfast_id : Int) = 1 ∧ [100].contains (o.id : Int))).map
          (fun o => o.group_id)).dedup).length = (groupsFor cdb3 1).length)) ∧
    ∀ a, optionCheck cdb3 1 none ≠ .ok a) :=
  c4_option_group_coverage [100] (by decide)

/-- C5: when the supplied promotion reference is currently active, the
recomputed authoritative total applies the percentage discount exactly to
the menu-item lines the promotion scopes (all of them when unscoped),
leaves every breakfast line at full validated price, and this recomputed
total replaces the accumulated line-by-line sum in the final price
check. -/
theorem c5_promotion_scope
    {db : DB} {guard : GuardState} {req : OrderRequest} {now : Int} {sess : String}
    {failAt : Option Nat} {tI tB v : Money} {merged : List BEntry} {db1 : DB}
    {tOpt : Option TableRow} {pid : Int} {p : PromotionRow}
    (huuid : isValidRequestId req.request_id = true)
    (hdup : (purgeGuard guard now).any (fun e => e.1 = fingerprintOf req) = false)
    (hne : ¬ (emptyArr req.items = true ∧ emptyArr req.breakfastItems = true))
    (hot : req.order_type = "local" ∨ req.order_type = "delivery")
    (htl : ¬ (req.order_type = "local" ∧ ¬ truthy req.table_id = true))
    (hda : ¬ (req.order_type = "delivery" ∧ blankAddr req.delivery_address = true))
    (hI : validateItems db (req.items.getD []) = .ok tI)
    (hB : validateBreakfasts db (req.breakfastItems.getD []) [] = .ok (tB, merged))
    (hT : tableCheck db req.table_id = .ok (db1, tOpt))
    (hpid : req.promotion_id = some pid)
    (hnz : pid ≠ 0)
    (hfp : findActivePromo db1 pid now = some p)
    (hrc : promoRecompute db1 (p.discount_percentage / 100) p.item_id (req.items.getD [])
        (req.breakfastItems.getD []) = some v) :
    v = specPromoTotal db1 req (p.discount_percentage / 100) p.item_id ∧
    ((postOrders db guard req now sess failAt).resp =
        .badRequest (.totalPriceMismatch v req.total_price) ↔
      1/100 < |req.total_price - v|) := by
  have hP : promoStage db1 req now (tI + tB) = .ok v := by
    unfold promoStage
    rw [if_pos (by simp [hpid, truthy, hnz])]
    rw [hpid]
    simp only [hfp, hrc]
  have hv : v = specPromoTotal db1 req (p.discount_percentage / 100) p.item_id := by
    rw [promoRecompute_ok hrc]
    rfl
  refine ⟨hv, ?_⟩
  rw [postOrders_fresh huuid hdup,
      postValidation_total_check hne hot htl hda hI hB hT hP]
  by_cases hgt : 1/100 < |req.total_price - v|
  · rw [if_pos hgt]
    exact ⟨fun _ => hgt, fun _ => rfl⟩
  · rw [if_neg hgt]
    constructor
    · intro hr
      exfalso
      cases hrt : runTransaction db1 req merged v sess failAt with
      | none => rw [hrt] at hr; simp at hr
      | some trip =>
        obtain ⟨db2, oid, nid⟩ := trip
        rw [hrt] at hr
        simp at hr
    · intro hgt2
      exact absurd hgt2 hgt

theorem c5_promotion_scope_witness :
    (5 : Money) = specPromoTotal wdb5 wreq5 ((50 : Money) / 100) (some 1) ∧
    ((postOrders wdb5 [] wreq5 10 "s" none).resp =
        .badRequest (.totalPriceMismatch 5 wreq5.total_price) ↔
      1/100 < |wreq5.total_price - (5 : Money)|) :=
  @c5_promotion_scope wdb5 [] wreq5 10 "s" none 10 0 5 [] wdb5 none 7
    ⟨7, true, 50, some 1, 0, 100⟩
    (by decide) (by decide) (by decide) (by decide) (by decide) (by decide)
    (by decide) (by decide) (by decide) (by decide) (by decide) (by decide) (by decide)

/-- C6: with the fingerprint of a request registered at time t0,
resubmitting the identical payload strictly within the 15-second window
is rejected with 429 and performs no store write and no event emission,
while once 15 seconds have elapsed the fingerprint has been purged and
the resubmission is not treated as a duplicate; a first submission with
an empty guard registers exactly its fingerprint. -/
theorem c6_duplicate_suppression
    {db db2 : DB} {req : OrderRequest} {t0 t1 : Int} {sess : String} {fa fa2 : Option Nat}
    (huuid : isValidRequestId req.request_id = true) :
    (postOrders db [] req t0 sess fa).guard = [(fingerprintOf req, t0)] ∧
    (t1 < t0 + 15 →
      (postOrders db2 [(fingerprintOf req, t0)] req t1 sess fa2).resp = .tooManyRequests ∧
      (postOrders db2 [(fingerprintOf req, t0)] req t1 sess fa2).db = db2 ∧
      (postOrders db2 [(fingerprintOf req, t0)] req t1 sess fa2).events = []) ∧
    (t0 + 15 ≤ t1 →
      purgeGuard [(fingerprintOf req, t0)] t1 = [] ∧
      (postOrders db2 [(fingerprintOf req, t0)] req t1 sess fa2).resp ≠ .tooManyRequests) := by
  refine ⟨?_, ?_, ?_⟩
  · rw [postOrders_fresh huuid (by rfl), postValidation_guard]
    rfl
  · intro hlt
    have hpg : purgeGuard [(fingerprintOf req, t0)] t1 = [(fingerprintOf req, t0)] := by
      simp [purgeGuard, hlt]
    unfold postOrders
    rw [if_neg (by simp [huuid]), hpg, if_pos (by simp)]
    exact ⟨rfl, rfl, rfl⟩
  · intro hge
    have hpg : purgeGuard [(fingerprintOf req, t0)] t1 = [] := by
      simp only [purgeGuard, List.filter]
      rw [decide_eq_false (by omega)]
    refine ⟨hpg, ?_⟩
    unfold postOrders
    rw [if_neg (by simp [huuid]), hpg]
    simp only [List.any_nil, Bool.false_eq_true, if_false]
    exact postValidation_resp_ne_dup db2 ([] ++ [(fingerprintOf req, t1)]) req t1 sess fa2

theorem c6_duplicate_suppression_witness :
    (postOrders wdb1 [] wreq1 0 "s" none).guard = [(fingerprintOf wreq1, 0)] ∧
    ((5 : Int) < 0 + 15 →
      (postOrders wdb1 [(fingerprintOf wreq1, 0)] wreq1 5 "s" none).resp = .tooManyRequests ∧
      (postOrders wdb1 [(fingerprintOf wreq1, 0)] wreq1 5 "s" none).db = wdb1 ∧
      (postOrders wdb1 [(fingerprintOf wreq1, 0)] wreq1 5 "s" none).events = []) ∧
    ((0 : Int) + 15 ≤ 5 →
      purgeGuard [(fingerprintOf wreq1, 0)] 5 = [] ∧
      (postOrders wdb1 [(fingerprintOf wreq1, 0)] wreq1 5 "s" none).resp ≠ .tooManyRequests) :=
  @c6_duplicate_suppression wdb1 wdb1 wreq1 0 5 "s" none none (by decide)

/-- C7: when any insert inside the persistence transaction fails, the
handler responds 500, emits no realtime event, and the store reverts to
its pre-transaction state, so zero rows exist for the attempted order
across the order, line, option-selection and notification tables. -/
theorem c7_transaction_rollback
    {db : DB} {guard : GuardState} {req : OrderRequest} {now : Int} {sess : String}
    {failAt : Option Nat} {tI tB v : Money} {merged : List BEntry} {db1 : DB}
    {tOpt : Option TableRow}
    (huuid : isValidRequestId req.request_id = true)
    (hdup : (purgeGuard guard now).any (fun e => e.1 = fingerprintOf req) = false)
    (hne : ¬ (emptyArr req.items = true ∧ emptyArr req.breakfastItems = true))
    (hot : req.order_type = "local" ∨ req.order_type = "delivery")
    (htl : ¬ (req.order_type = "local" ∧ ¬ truthy req.table_id = true))
    (hda : ¬ (req.order_type = "delivery" ∧ blankAddr req.delivery_address = true))
    (hI : validateItems db (req.items.getD []) = .ok tI)
    (hB : validateBreakfasts db (req.breakfastItems.getD []) [] = .ok (tB, merged))
    (hT : tableCheck db req.table_id = .ok (db1, tOpt))
    (hP : promoStage db1 req now (tI + tB) = .ok v)
    (hok : ¬ (1/100 < |req.total_price - v|))
    (hfail : runTransaction db1 req merged v sess failAt = none)
    (hclean : rowsForOrder db1 db1.nextOrderId = 0) :
    (postOrders db guard req now sess failAt).resp = .serverError ∧
    (postOrders db guard req now sess failAt).events = [] ∧
    (postOrders db guard req now sess failAt).db = db1 ∧
    rowsForOrder (postOrders db guard req now sess failAt).db db1.nextOrderId = 0 := by
  rw [postOrders_fresh huuid hdup,
      postValidation_total_check hne hot htl hda hI hB hT hP, if_neg hok, hfail]
  exact ⟨rfl, rfl, rfl, hclean⟩

theorem c7_transaction_rollback_witness :
    runTransaction wdb1 wreq1 [] 20 "s" (some 1) = none ∧
    (postOrders wdb1 [] wreq1 0 "s" (some 1)).resp = .serverError ∧
    (postOrders wdb1 [] wreq1 0 "s" (some 1)).events = [] ∧
    (postOrders wdb1 [] wreq1 0 "s" (some 1)).db = wdb1 ∧
    rowsForOrder (postOrders wdb1 [] wreq1 0 "s" (some 1)).db wdb1.nextOrderId = 0 :=
  ⟨by decide,
   @c7_transaction_rollback wdb1 [] wreq1 0 "s" (some 1) 20 0 20 [] wdb1 none
     (by decide) (by decide) (by decide) (by decide) (by decide) (by decide)
     (by decide) (by decide) (by decide) (by decide) (by decide) (by decide) (by decide)⟩

/-- C8: approving an order flips the approved flag exactly once: a
missing order yields 404, an already-approved order yields 400 with the
flag unchanged, and a fresh order is flipped to approved (observable via
the GET /orders/:id read) with a 200 response and the approval events. -/
theorem c8_approval_one_way {db : DB} {oid : Int} (hpos : 0 < oid) :
    (db.orders.find? (fun o => (o.id : Int) = oid) = none →
      approveOrder db true oid = (db, .notFound, [])) ∧
    (∀ o, db.orders.find? (fun r => (r.id : Int) = oid) = some o → o.approved = true →
      approveOrder db true oid = (db, .badRequest .alreadyApproved, []) ∧
      getOrderById db oid = some o) ∧
    (∀ o, db.orders.find? (fun r => (r.id : Int) = oid) = some o → o.approved = false →
      (approveOrder db true oid).2.1 = .okMsg ∧
      (approveOrder db true oid).2.2 =
        [.orderApprovedSession o.session_id o.id, .orderApprovedBroadcast o.id] ∧
      getOrderById (approveOrder db true oid).1 oid = some { o with approved := true }) := by
  have hle : ¬ (oid ≤ 0) := by omega
  refine ⟨?_, ?_, ?_⟩
  · intro hn
    unfold approveOrder
    rw [if_neg (by simp), if_neg hle, hn]
  · intro o hf ha
    unfold approveOrder
    rw [if_neg (by simp), if_neg hle]
    simp only [hf]
    rw [if_pos (by simp [ha])]
    refine ⟨rfl, ?_⟩
    unfold getOrderById
    rw [if_neg hle, hf]
  · intro o hf ha
    unfold approveOrder
    rw [if_neg (by simp), if_neg hle]
    simp only [hf]
    rw [if_neg (by simp [ha])]
    refine ⟨rfl, rfl, ?_⟩
    unfold getOrderById
    rw [if_neg hle]
    exact find_map_approved hf

theorem c8_approval_one_way_witness :
    (wdb8.orders.find? (fun o => (o.id : Int) = 1) = none →
      approveOrder wdb8 true 1 = (wdb8, .notFound, [])) ∧
    (∀ o, wdb8.orders.find? (fun r => (r.id : Int) = 1) = some o → o.approved = true →
      approveOrder wdb8 true 1 = (wdb8, .badRequest .alreadyApproved, []) ∧
      getOrderById wdb8 1 = some o) ∧
    (∀ o, wdb8.orders.find? (fun r => (r.id : Int) = 1) = some o → o.approved = false →
      (approveOrder wdb8 true 1).2.1 = .okMsg ∧
      (approveOrder wdb8 true 1).2.2 =
        [.orderApprovedSession o.session_id o.id, .orderApprovedBroadcast o.id] ∧
      getOrderById (approveOrder wdb8 true 1).1 1 = some { o with approved := true }) :=
  @c8_approval_one_way wdb8 1 (by decide)

/-- C9: a POST /orders request referencing a table whose status is
reserved is rejected with 400 Table-is-reserved, leaving the store
untouched and emitting nothing; the table-check stage transitions to
occupied exactly those tables that are neither reserved nor already
occupied, and leaves an occupied table unchanged. -/
theorem c9_reserved_table
    {db : DB} {guard : GuardState} {req : OrderRequest} {now : Int} {sess : String}
    {failAt : Option Nat} {tI tB : Money} {merged : List BEntry} {tid : Int} {t : TableRow}
    (huuid : isValidRequestId req.request_id = true)
    (hdup : (purgeGuard guard now).any (fun e => e.1 = fingerprintOf req) = false)
    (hne : ¬ (emptyArr req.items = true ∧ emptyArr req.breakfastItems = true))
    (hot : req.order_type = "local" ∨ req.order_type = "delivery")
    (htl : ¬ (req.order_type = "local" ∧ ¬ truthy req.table_id = true))
    (hda : ¬ (req.order_type = "delivery" ∧ blankAddr req.delivery_address = true))
    (hI : validateItems db (req.items.getD []) = .ok tI)
    (hB : validateBreakfasts db (req.breakfastItems.getD []) [] = .ok (tB, merged))
    (htid : req.table_id = some tid)
    (hnz : tid ≠ 0)
    (hfnd : db.tables.find? (fun r => (r.id : Int) = tid) = some t) :
    (t.status = "reserved" →
      (postOrders db guard req now sess failAt).resp = .badRequest .tableReserved ∧
      (postOrders db guard req now sess failAt).db = db ∧
      (postOrders db guard req now sess failAt).events = []) ∧
    (t.status = "occupied" → tableCheck db req.table_id = .ok (db, some t)) ∧
    (t.status ≠ "reserved" → t.status ≠ "occupied" →
      tableCheck db req.table_id =
        .ok ({ db with tables := (db.tables.map
          (fun r => if (r.id : Int) = tid then { r with status := "occupied" } else r)) },
          some t)) := by
  refine ⟨?_, ?_, ?_⟩
  · intro hres
    have hTC : tableCheck db req.table_id = .error (.bad .tableReserved) := by
      unfold tableCheck
      rw [htid, if_pos (by simp [truthy, hnz])]
      simp only [hfnd]
      rw [if_pos hres]
    rw [postOrders_fresh huuid hdup, postValidation_table_error hne hot htl hda hI hB hTC]
    exact ⟨rfl, rfl, rfl⟩
  · intro hocc
    unfold tableCheck
    rw [htid, if_pos (by simp [truthy, hnz])]
    simp only [hfnd]
    rw [if_neg (by rw [hocc]; decide), if_neg (not_not_intro hocc)]
  · intro hnr hno
    unfold tableCheck
    rw [htid, if_pos (by simp [truthy, hnz])]
    simp only [hfnd]
    rw [if_neg hnr, if_pos hno]

theorem c9_reserved_table_witness :
    (("reserved" : String) = "reserved" →
      (postOrders wdb9 [] wreq9 0 "s" none).resp = .badRequest .tableReserved ∧
      (postOrders wdb9 [] wreq9 0 "s" none).db = wdb9 ∧
      (postOrders wdb9 [] wreq9 0 "s" none).events = []) ∧
    (("reserved" : String) = "occupied" →
      tableCheck wdb9 wreq9.table_id = .ok (wdb9, some ⟨1, 5, "reserved"⟩)) ∧
    (("reserved" : String) ≠ "reserved" → ("reserved" : String) ≠ "occupied" →
      tableCheck wdb9 wreq9.table_id =
        .ok ({ wdb9 with tables := (wdb9.tables.map
          (fun r => if (r.id : Int) = 1 then { r with status := "occupied" } else r)) },
          some ⟨1, 5, "reserved"⟩)) :=
  @c9_reserved_table wdb9 [] wreq9 0 "s" none 20 0 [] 1 ⟨1, 5, "reserved"⟩
    (by decide) (by decide) (by decide) (by decide) (by decide) (by decide)
    (by decide) (by decide) (by decide) (by decide) (by decide)

/-- C10: a promotion reference that matches no currently active promotion
never fails the request: the order is created with the undiscounted
authoritative total while the supplied promotion_id is still persisted on
the stored order header. -/
theorem c10_inactive_promotion
    {db : DB} {guard : GuardState} {req : OrderRequest} {now : Int} {sess : String}
    {failAt : Option Nat} {tI tB : Money} {merged : List BEntry} {db1 : DB}
    {tOpt : Option TableRow} {pid : Int}
    (huuid : isValidRequestId req.request_id = true)
    (hdup : (purgeGuard guard now).any (fun e => e.1 = fingerprintOf req) = false)
    (hne : ¬ (emptyArr req.items = true ∧ emptyArr req.breakfastItems = true))
    (hot : req.order_type = "local" ∨ req.order_type = "delivery")
    (htl : ¬ (req.order_type = "local" ∧ ¬ truthy req.table_id = true))
    (hda : ¬ (req.order_type = "delivery" ∧ blankAddr req.delivery_address = true))
    (hI : validateItems db (req.items.getD []) = .ok tI)
    (hB : validateBreakfasts db (req.breakfastItems.getD []) [] = .ok (tB, merged))
    (hT : tableCheck db req.table_id = .ok (db1, tOpt))
    (hpid : req.promotion_id = some pid)
    (hnz : pid ≠ 0)
    (hnap : findActivePromo db1 pid now = none)
    (hok : ¬ (1/100 < |req.total_price - (tI + tB)|))
    (hsucc : runTransaction db1 req merged (tI + tB) sess failAt ≠ none) :
    tI + tB = specCartTotal db req ∧
    (postOrders db guard req now sess failAt).resp = .created db1.nextOrderId ∧
    (postOrders db guard req now sess failAt).db.orders =
      db1.orders ++ [⟨db1.nextOrderId, tI + tB, req.order_type,
        addrOrNull req.delivery_address, some pid, orNull req.table_id, sess, false⟩] := by
  have hP : promoStage db1 req now (tI + tB) = .ok (tI + tB) := by
    apply promoStage_inactive
    intro pid2 hp2
    rw [hpid] at hp2
    injection hp2 with hp2
    subst hp2
    exact hnap
  have hspec : tI + tB = specCartTotal db req := by
    rw [validateItems_ok hI, validateBreakfasts_ok hB]
    rfl
  have hon : orNull req.promotion_id = some pid := by
    rw [hpid]
    unfold orNull
    split
    · rename_i heq
      injection heq with heq
      exact absurd heq hnz
    · rfl
  refine ⟨hspec, ?_⟩
  rw [postOrders_fresh huuid hdup,
      postValidation_total_check hne hot htl hda hI hB hT hP, if_neg hok]
  cases hrt : runTransaction db1 req merged (tI + tB) sess failAt with
  | none => exact absurd hrt hsucc
  | some trip =>
    obtain ⟨db2, oid, nid⟩ := trip
    obtain ⟨hoid, horders⟩ := runTransaction_orders hrt
    subst hoid
    rw [hon] at horders
    constructor
    · simp only [hrt]
    · simp only [hrt]
      exact horders

theorem c10_inactive_promotion_witness :
    (20 : Money) + 0 = specCartTotal wdb1 wreq10 ∧
    (postOrders wdb1 [] wreq10 0 "s" none).resp = .created wdb1.nextOrderId ∧
    (postOrders wdb1 [] wreq10 0 "s" none).db.orders =
      wdb1.orders ++ [⟨wdb1.nextOrderId, 20 + 0, wreq10.order_type,
        addrOrNull wreq10.delivery_address, some 9, orNull wreq10.table_id, "s", false⟩] :=
  @c10_inactive_promotion wdb1 [] wreq10 0 "s" none 20 0 [] wdb1 none 9
    (by decide) (by decide) (by decide) (by decide) (by decide) (by decide)
    (by decide) (by decide) (by decide) (by decide) (by decide) (by decide)
    (by decide) (by decide)

end CoffeeOrders
